import Mathlib

/-!
Verification of the Camunda browser-automation script `src/automation.ts`.

The script is a linear Playwright workflow: a top-level orchestrator `run`
launches a browser session, drives five stages (login, navigateToModeler,
createProcess, runProcessInstance, verifyCompletion) against one page, and
closes the browser in a `finally` block.  Each stage wraps every exception
from its body into a stage-labelled error message.

The browser engine is an external collaborator, so it is modelled as an
environment `Env` that decides the outcome of every automation primitive
(navigate, fill, press, click, wait, select, read-text).  A computation is a
function from the environment and the trace of primitives attempted so far
to an `Except`-result together with the extended trace; this mirrors the
sequential `await`-chain of the TypeScript source, where each primitive is
attempted in order and the first rejection aborts the rest of the `try`
body.  Console output is recorded in the same trace as `log` / `logError`
events (console calls never throw).
-/

namespace Automation

/-- One automation primitive or console event, as invoked by the script.
Each constructor corresponds to one kind of call in `src/automation.ts`:
`chromium.launch`, `browser.newContext`, `context.newPage`,
`browser.close`, `page.goto`, `page.fill`, `page.press`, `page.click`,
`page.waitForNavigation`, `page.waitForSelector` (with its optional
`timeout` option in milliseconds), `selectOption` on a located element,
`page.textContent`, `console.log` and `console.error`. -/
inductive Action : Type where
  | launch : Action
  | newContext : Action
  | newPage : Action
  | browserClose : Action
  | goto (url : String) : Action
  | fill (selector value : String) : Action
  | press (selector key : String) : Action
  | click (selector : String) : Action
  | waitForNavigation : Action
  | waitForSelector (selector : String) (timeout : Option Nat) : Action
  | selectOption (selector value : String) : Action
  | textContent (selector : String) : Action
  | log (msg : String) : Action
  | logError (msg : String) : Action
deriving DecidableEq, Repr

/-- The external browser engine: given the history of attempted primitives,
`act` decides whether the next primitive succeeds or rejects with an error
message, and `text` gives the result of a `textContent` read (a text, the
DOM `null`, or a rejection). -/
structure Env : Type where
  act : List Action → Action → Except String Unit
  text : List Action → String → Except String (Option String)

/-- A step of the script: from the environment and the trace of primitives
attempted so far, produce a result and the extended trace. -/
def M (α : Type) : Type := Env → List Action → Except String α × List Action

instance : Monad M where
  pure a := fun _ tr => (Except.ok a, tr)
  bind x f := fun env tr =>
    match x env tr with
    | (Except.ok v, tr1) => f v env tr1
    | (Except.error m, tr1) => (Except.error m, tr1)

/-- Outcome of attempting one primitive: console events always succeed,
every other primitive is decided by the environment. -/
def primRes (env : Env) (tr : List Action) (a : Action) : Except String Unit :=
  match a with
  | Action.log _ => Except.ok ()
  | Action.logError _ => Except.ok ()
  | _ => env.act tr a

/-- Attempt one primitive: it is recorded in the trace whether it succeeds
or rejects (an `await` that rejects was still attempted). -/
def prim (a : Action) : M Unit := fun env tr => (primRes env tr a, tr ++ [a])

/-- `page.textContent`: read the text content of the element matching a
selector; `none` models the DOM returning `null`. -/
def primText (selector : String) : M (Option String) := fun env tr =>
  (env.text tr selector, tr ++ [Action.textContent selector])

/-- `throw new Error(msg)`. -/
def throwErr {α : Type} (msg : String) : M α := fun _ tr => (Except.error msg, tr)

/-- The `try { body } catch (error) { handler }` statement. -/
def tryCatch (body : M Unit) (handler : String → M Unit) : M Unit := fun env tr =>
  match body env tr with
  | (Except.ok v, tr1) => (Except.ok v, tr1)
  | (Except.error m, tr1) => handler m env tr1

/-- Run a list of primitives in order, stopping at the first rejection
(the sequential `await` chain of a `try` body). -/
def execSeq : List Action → M Unit
  | [] => pure ()
  | a :: rest => prim a >>= fun _ => execSeq rest

/-- The resolved configuration (`src/automation.ts` lines 7-11): five
string constants read once from the process environment at startup. -/
structure Config : Type where
  CAMUNDA_URL : String
  USERNAME : String
  PASSWORD : String
  PROCESS_NAME : String
  REST_URL : String
deriving DecidableEq, Repr

/-- JavaScript `v || d` for `v : string | undefined`: `undefined` and the
empty string are falsy, any other string is returned unchanged. -/
def jsOr (v : Option String) (d : String) : String :=
  match v with
  | none => d
  | some s => if s = "" then d else s

/-- Resolve the configuration from an environment-variable lookup, with the
literal fallback defaults of `src/automation.ts` lines 7-11. -/
def resolveConfig (envVars : String → Option String) : Config :=
  { CAMUNDA_URL := jsOr (envVars "CAMUNDA_URL") ""
    USERNAME := jsOr (envVars "USERNAME") ""
    PASSWORD := jsOr (envVars "PASSWORD") ""
    PROCESS_NAME := jsOr (envVars "PROCESS_NAME") "Test Process"
    REST_URL := jsOr (envVars "REST_URL") "https://api.example.com/data" }

/-- The configuration resolved when no environment variable is set. -/
def defaultCfg : Config := resolveConfig (fun _ => none)

/-- The primitives of the `try` body of `login` (lines 43-49), in source
order; the trailing `log` is the `console.log` closing the body. -/
def loginSteps (camundaUrl username password : String) : List Action :=
  [ Action.goto (camundaUrl ++ "/login")
  , Action.fill "input[name=\"username\"]" username
  , Action.press "input[name=\"username\"]" "Enter"
  , Action.fill "input[name=\"password\"]" password
  , Action.press "input[name=\"password\"]" "Enter"
  , Action.waitForNavigation
  , Action.log "Logged in successfully" ]

/-- `login` (lines 41-53): run the body, wrapping any rejection into
`Login failed: ` ++ the original message.  The source reads the global
`CAMUNDA_URL`; here it is passed explicitly as `camundaUrl`. -/
def login (camundaUrl username password : String) : M Unit :=
  tryCatch (execSeq (loginSteps camundaUrl username password))
    (fun m => throwErr ("Login failed: " ++ m))

/-- The primitives of the `try` body of `navigateToModeler` (lines 61-63). -/
def navigateToModelerSteps (camundaUrl : String) : List Action :=
  [ Action.goto camundaUrl
  , Action.waitForSelector "button >> text=Create process" none
  , Action.log "Navigated to Web Modeler" ]

/-- `navigateToModeler` (lines 59-67). -/
def navigateToModeler (camundaUrl : String) : M Unit :=
  tryCatch (execSeq (navigateToModelerSteps camundaUrl))
    (fun m => throwErr ("Navigation to Web Modeler failed: " ++ m))

/-- The primitives of the `try` body of `createProcess` (lines 77-92): note
the single bounded wait, `waitForSelector "input#rest-url"` with
`timeout: 5000`; the element handle it returns is filled next. -/
def createProcessSteps (processName restUrl : String) : List Action :=
  [ Action.click "button >> text=Create process"
  , Action.fill "input#process-name" processName
  , Action.click "button >> text=Create"
  , Action.click "button >> text=Add Connector"
  , Action.waitForSelector "input#rest-url" (some 5000)
  , Action.fill "input#rest-url" restUrl
  , Action.click "button >> text=Save Connector"
  , Action.click "button >> text=Save"
  , Action.log ("Process \"" ++ processName ++ "\" created successfully") ]

/-- `createProcess` (lines 75-96). -/
def createProcess (processName restUrl : String) : M Unit :=
  tryCatch (execSeq (createProcessSteps processName restUrl))
    (fun m => throwErr ("Process creation failed: " ++ m))

/-- The primitives of the `try` body of `runProcessInstance`
(lines 105-120). -/
def runProcessInstanceSteps (camundaUrl processName : String) : List Action :=
  [ Action.goto (camundaUrl ++ "/run")
  , Action.click "button >> text=Run instance"
  , Action.click "button#operate-sidebar-toggle"
  , Action.waitForSelector "a#operate-link" none
  , Action.click "a#operate-link"
  , Action.waitForSelector "select#process-name" none
  , Action.selectOption "select#process-name" processName
  , Action.click "button >> text=Start instance"
  , Action.log ("Process instance of \"" ++ processName ++ "\" started successfully") ]

/-- `runProcessInstance` (lines 103-124). -/
def runProcessInstance (camundaUrl processName : String) : M Unit :=
  tryCatch (execSeq (runProcessInstanceSteps camundaUrl processName))
    (fun m => throwErr ("Running process instance failed: " ++ m))

/-- The row selector `tr[id="process-row-<name>"]` (line 144). -/
def processRowSelector (processName : String) : String :=
  "tr[id=\"process-row-" ++ processName ++ "\"]"

/-- The completion-status cell selector (line 145). -/
def completionStatusCellSelector (processName : String) : String :=
  processRowSelector processName ++ " td[id=\"completion-status\"]"

/-- The console line for a completed instance (line 151). -/
def completedLine (processName : String) : String :=
  "Process instance of \"" ++ processName ++ "\" completed successfully"

/-- The console line for a non-completed instance (line 153). -/
def didNotCompleteLine (processName : String) : String :=
  "Process instance of \"" ++ processName ++ "\" did not complete"

/-- The primitives of the `try` body of `verifyCompletion` up to the
status read (lines 134-147). -/
def verifySteps (processName : String) : List Action :=
  [ Action.click "button#operate-sidebar-toggle"
  , Action.waitForSelector "a#operate-link" none
  , Action.click "a#operate-link"
  , Action.fill "input#process-search" processName
  , Action.click "button >> text=Search"
  , Action.waitForSelector (completionStatusCellSelector processName) none ]

/-- The `try` body of `verifyCompletion` (lines 133-154): navigate to the
status cell, read its text content, and log one line depending on whether
it equals exactly `"Completed"` (`===` on a `string | null` value). -/
def verifyBody (processName : String) : M Unit := do
  execSeq (verifySteps processName)
  let completionStatus ← primText (completionStatusCellSelector processName)
  if completionStatus = some "Completed" then
    prim (Action.log (completedLine processName))
  else
    prim (Action.log (didNotCompleteLine processName))

/-- `verifyCompletion` (lines 131-158). -/
def verifyCompletion (processName : String) : M Unit :=
  tryCatch (verifyBody processName)
    (fun m => throwErr ("Verification of process completion failed: " ++ m))

/-- The `try` body of `run` after the browser launch (lines 17-24): open a
context and a page, then the five stages in fixed order, each reading the
resolved configuration constants. -/
def stagesAfterLaunch (cfg : Config) : M Unit := do
  prim Action.newContext
  prim Action.newPage
  login cfg.CAMUNDA_URL cfg.USERNAME cfg.PASSWORD
  navigateToModeler cfg.CAMUNDA_URL
  createProcess cfg.PROCESS_NAME cfg.REST_URL
  runProcessInstance cfg.CAMUNDA_URL cfg.PROCESS_NAME
  verifyCompletion cfg.PROCESS_NAME

/-- The `finally` path of `run` once `browser` is assigned: on a normal
body completion close the browser; on a caught error log the diagnostic
line (`console.error`, line 27) and then close.  An error thrown by the
close itself is not handled by anything and becomes the result of `run`. -/
def finallyClose (r : Except String Unit × List Action) (env : Env) :
    Except String Unit × List Action :=
  match r with
  | (Except.ok _, tr2) => prim Action.browserClose env tr2
  | (Except.error m, tr2) =>
    match prim (Action.logError ("An error occurred: " ++ m)) env tr2 with
    | (_, tr3) => prim Action.browserClose env tr3

/-- `run` (lines 13-33): `let browser; try { browser = launch; ... }
catch (error) { console.error } finally { if (browser) close }`.  If the
launch itself rejects, `browser` is still `undefined`: the catch logs the
diagnostic and the `finally` block skips the close. -/
def run (cfg : Config) : M Unit := fun env tr =>
  match prim Action.launch env tr with
  | (Except.error m, tr1) =>
    prim (Action.logError ("An error occurred: " ++ m)) env tr1
  | (Except.ok _, tr1) => finallyClose (stagesAfterLaunch cfg env tr1) env

/-- An environment whose primitive outcomes do not depend on the history:
`f` decides each primitive, `t` is the result of every text read. -/
def mkEnv (f : Action → Except String Unit) (t : Except String (Option String)) : Env :=
  { act := fun _ a => f a, text := fun _ _ => t }

/-- Every primitive succeeds. -/
def allOk : Action → Except String Unit := fun _ => Except.ok ()

/-- Exactly the primitive `bad` rejects, with message `msg`. -/
def failOnly (bad : Action) (msg : String) : Action → Except String Unit :=
  fun a => if a = bad then Except.error msg else Except.ok ()

/-- Every primitive rejects with message `msg`. -/
def failAll (msg : String) : Action → Except String Unit :=
  fun _ => Except.error msg

/-- The environment accepts every primitive. -/
def okActs (env : Env) : Prop := ∀ tr a, env.act tr a = Except.ok ()

/-- Every text read yields `t`. -/
def okText (env : Env) (t : Option String) : Prop :=
  ∀ tr s, env.text tr s = Except.ok t

/-- `true` on the browser-close primitive only. -/
def isClose : Action → Bool
  | Action.browserClose => true
  | _ => false

/-- `true` on `console.error` events only. -/
def isErrorLog : Action → Bool
  | Action.logError _ => true
  | _ => false

/-- Events a stage body may emit: everything except the orchestrator-owned
launch, close and `console.error` events. -/
def stageBenign : Action → Bool
  | Action.launch => false
  | Action.browserClose => false
  | Action.logError _ => false
  | _ => true

/-! ### Basic lemmas about the monad and the primitives -/

theorem pure_apply {α : Type} (a : α) (env : Env) (tr : List Action) :
    (pure a : M α) env tr = (Except.ok a, tr) := rfl

theorem bind_apply {α β : Type} (x : M α) (f : α → M β) (env : Env) (tr : List Action) :
    (x >>= f) env tr =
      match x env tr with
      | (Except.ok v, tr1) => f v env tr1
      | (Except.error m, tr1) => (Except.error m, tr1) := rfl

theorem bind_ok {α β : Type} {x : M α} {env : Env} {tr tr1 : List Action} {v : α}
    (f : α → M β) (h : x env tr = (Except.ok v, tr1)) :
    (x >>= f) env tr = f v env tr1 := by
  rw [bind_apply, h]

theorem bind_err {α β : Type} {x : M α} {env : Env} {tr tr1 : List Action} {m : String}
    (f : α → M β) (h : x env tr = (Except.error m, tr1)) :
    (x >>= f) env tr = (Except.error m, tr1) := by
  rw [bind_apply, h]

theorem prim_apply (a : Action) (env : Env) (tr : List Action) :
    prim a env tr = (primRes env tr a, tr ++ [a]) := rfl

theorem primRes_ok {env : Env} (h : okActs env) (tr : List Action) (a : Action) :
    primRes env tr a = Except.ok () := by
  cases a <;> first | rfl | exact h tr _

theorem prim_ok {env : Env} (h : okActs env) (a : Action) (tr : List Action) :
    prim a env tr = (Except.ok (), tr ++ [a]) := by
  rw [prim_apply, primRes_ok h]

theorem tryCatch_ok {body : M Unit} {env : Env} {tr tr1 : List Action} {v : Unit}
    (handler : String → M Unit) (h : body env tr = (Except.ok v, tr1)) :
    tryCatch body handler env tr = (Except.ok v, tr1) := by
  unfold tryCatch
  rw [h]

theorem tryCatch_err {body : M Unit} {env : Env} {tr tr1 : List Action} {m : String}
    (handler : String → M Unit) (h : body env tr = (Except.error m, tr1)) :
    tryCatch body handler env tr = handler m env tr1 := by
  unfold tryCatch
  rw [h]

theorem tryCatch_wrap {body : M Unit} {env : Env} {tr tr1 : List Action} {m : String}
    (lbl : String) (h : body env tr = (Except.error m, tr1)) :
    tryCatch body (fun e => throwErr (lbl ++ e)) env tr = (Except.error (lbl ++ m), tr1) := by
  rw [tryCatch_err _ h]
  rfl

theorem execSeq_ok {env : Env} (h : okActs env) :
    ∀ (l tr : List Action), execSeq l env tr = (Except.ok (), tr ++ l) := by
  intro l
  induction l with
  | nil => intro tr; simp [execSeq, pure_apply]
  | cons a rest ih =>
    intro tr
    unfold execSeq
    rw [bind_ok _ (prim_ok h a tr), ih]
    simp

/-! ### Success-path lemmas for the individual stages -/

theorem login_ok {env : Env} (h : okActs env) (camundaUrl username password : String)
    (tr : List Action) :
    login camundaUrl username password env tr =
      (Except.ok (), tr ++ loginSteps camundaUrl username password) := by
  unfold login
  exact tryCatch_ok _ (execSeq_ok h _ tr)

theorem navigateToModeler_ok {env : Env} (h : okActs env) (camundaUrl : String)
    (tr : List Action) :
    navigateToModeler camundaUrl env tr =
      (Except.ok (), tr ++ navigateToModelerSteps camundaUrl) := by
  unfold navigateToModeler
  exact tryCatch_ok _ (execSeq_ok h _ tr)

theorem createProcess_ok {env : Env} (h : okActs env) (processName restUrl : String)
    (tr : List Action) :
    createProcess processName restUrl env tr =
      (Except.ok (), tr ++ createProcessSteps processName restUrl) := by
  unfold createProcess
  exact tryCatch_ok _ (execSeq_ok h _ tr)

theorem runProcessInstance_ok {env : Env} (h : okActs env) (camundaUrl processName : String)
    (tr : List Action) :
    runProcessInstance camundaUrl processName env tr =
      (Except.ok (), tr ++ runProcessInstanceSteps camundaUrl processName) := by
  unfold runProcessInstance
  exact tryCatch_ok _ (execSeq_ok h _ tr)

theorem verifyBody_ok {env : Env} {t : Option String} (h : okActs env)
    (ht : okText env t) (processName : String) (tr : List Action) :
    verifyBody processName env tr =
      (Except.ok (),
       tr ++ verifySteps processName ++
         [Action.textContent (completionStatusCellSelector processName),
          Action.log (if t = some "Completed" then completedLine processName
            else didNotCompleteLine processName)]) := by
  unfold verifyBody
  rw [bind_ok _ (execSeq_ok h _ tr)]
  have hread : primText (completionStatusCellSelector processName) env
      (tr ++ verifySteps processName) =
      (Except.ok t,
       tr ++ verifySteps processName ++
         [Action.textContent (completionStatusCellSelector processName)]) := by
    unfold primText
    rw [ht]
  rw [bind_ok _ hread]
  by_cases hc : t = some "Completed"
  · rw [if_pos hc, prim_ok h]
    simp [hc]
  · rw [if_neg hc, prim_ok h]
    simp [hc]

theorem verifyCompletion_ok {env : Env} {t : Option String} (h : okActs env)
    (ht : okText env t) (processName : String) (tr : List Action) :
    verifyCompletion processName env tr =
      (Except.ok (),
       tr ++ verifySteps processName ++
         [Action.textContent (completionStatusCellSelector processName),
          Action.log (if t = some "Completed" then completedLine processName
            else didNotCompleteLine processName)]) := by
  unfold verifyCompletion
  exact tryCatch_ok _ (verifyBody_ok h ht processName tr)

/-! ### Trace shape: stage bodies only emit stage-benign events -/

/-- A computation only ever appends stage-benign events to the trace,
whatever the environment does. -/
def AddsBenign {α : Type} (x : M α) : Prop :=
  ∀ env tr, ∃ d, (x env tr).2 = tr ++ d ∧ ∀ e ∈ d, stageBenign e = true

theorem addsBenign_pure {α : Type} (a : α) : AddsBenign (pure a : M α) := by
  intro env tr
  exact ⟨[], by simp [pure_apply], by simp⟩

theorem addsBenign_bind {α β : Type} {x : M α} {f : α → M β}
    (hx : AddsBenign x) (hf : ∀ v, AddsBenign (f v)) : AddsBenign (x >>= f) := by
  intro env tr
  rw [bind_apply]
  rcases hx env tr with ⟨d1, hd1, hb1⟩
  cases hx2 : x env tr with
  | mk r tr1 =>
    rw [hx2] at hd1
    simp only at hd1
    cases r with
    | error m => exact ⟨d1, by simpa using hd1, hb1⟩
    | ok v =>
      rcases hf v env tr1 with ⟨d2, hd2, hb2⟩
      refine ⟨d1 ++ d2, ?_, ?_⟩
      · subst hd1
        simp [hd2, List.append_assoc]
      · intro e he
        rcases List.mem_append.mp he with h | h
        · exact hb1 e h
        · exact hb2 e h

theorem addsBenign_prim {a : Action} (h : stageBenign a = true) : AddsBenign (prim a) :=
  fun _ tr => ⟨[a], by rw [prim_apply], by simpa using h⟩

theorem addsBenign_primText (s : String) : AddsBenign (primText s) :=
  fun _ _ => ⟨[Action.textContent s], rfl, by simp [stageBenign]⟩

theorem addsBenign_execSeq {l : List Action} (h : ∀ e ∈ l, stageBenign e = true) :
    AddsBenign (execSeq l) := by
  induction l with
  | nil => exact addsBenign_pure ()
  | cons a rest ih =>
    exact addsBenign_bind (addsBenign_prim (h a (by simp)))
      (fun _ => ih (fun e he => h e (by simp [he])))

theorem addsBenign_tryCatch {body : M Unit} (lbl : String) (hb : AddsBenign body) :
    AddsBenign (tryCatch body (fun m => throwErr (lbl ++ m))) := by
  intro env tr
  rcases hb env tr with ⟨d, hd, hben⟩
  unfold tryCatch
  cases hb2 : body env tr with
  | mk r tr1 =>
    rw [hb2] at hd
    simp only at hd
    cases r with
    | ok v => exact ⟨d, by simpa using hd, hben⟩
    | error m => exact ⟨d, by simpa [throwErr] using hd, hben⟩

theorem loginSteps_benign (camundaUrl username password : String) :
    ∀ e ∈ loginSteps camundaUrl username password, stageBenign e = true := by
  intro e he
  simp [loginSteps] at he
  rcases he with rfl | rfl | rfl | rfl | rfl | rfl | rfl <;> rfl

theorem navigateToModelerSteps_benign (camundaUrl : String) :
    ∀ e ∈ navigateToModelerSteps camundaUrl, stageBenign e = true := by
  intro e he
  simp [navigateToModelerSteps] at he
  rcases he with rfl | rfl | rfl <;> rfl

theorem createProcessSteps_benign (processName restUrl : String) :
    ∀ e ∈ createProcessSteps processName restUrl, stageBenign e = true := by
  intro e he
  simp [createProcessSteps] at he
  rcases he with rfl | rfl | rfl | rfl | rfl | rfl | rfl | rfl | rfl <;> rfl

theorem runProcessInstanceSteps_benign (camundaUrl processName : String) :
    ∀ e ∈ runProcessInstanceSteps camundaUrl processName, stageBenign e = true := by
  intro e he
  simp [runProcessInstanceSteps] at he
  rcases he with rfl | rfl | rfl | rfl | rfl | rfl | rfl | rfl | rfl <;> rfl

theorem verifySteps_benign (processName : String) :
    ∀ e ∈ verifySteps processName, stageBenign e = true := by
  intro e he
  simp [verifySteps] at he
  rcases he with rfl | rfl | rfl | rfl | rfl | rfl <;> rfl

theorem addsBenign_login (camundaUrl username password : String) :
    AddsBenign (login camundaUrl username password) :=
  addsBenign_tryCatch _ (addsBenign_execSeq (loginSteps_benign camundaUrl username password))

theorem addsBenign_navigateToModeler (camundaUrl : String) :
    AddsBenign (navigateToModeler camundaUrl) :=
  addsBenign_tryCatch _ (addsBenign_execSeq (navigateToModelerSteps_benign camundaUrl))

theorem addsBenign_createProcess (processName restUrl : String) :
    AddsBenign (createProcess processName restUrl) :=
  addsBenign_tryCatch _ (addsBenign_execSeq (createProcessSteps_benign processName restUrl))

theorem addsBenign_runProcessInstance (camundaUrl processName : String) :
    AddsBenign (runProcessInstance camundaUrl processName) :=
  addsBenign_tryCatch _
    (addsBenign_execSeq (runProcessInstanceSteps_benign camundaUrl processName))

theorem addsBenign_verifyBody (processName : String) : AddsBenign (verifyBody processName) := by
  unfold verifyBody
  refine addsBenign_bind (addsBenign_execSeq (verifySteps_benign processName)) (fun _ => ?_)
  refine addsBenign_bind (addsBenign_primText _) (fun c => ?_)
  by_cases hc : c = some "Completed"
  · rw [if_pos hc]
    exact addsBenign_prim rfl
  · rw [if_neg hc]
    exact addsBenign_prim rfl

theorem addsBenign_verifyCompletion (processName : String) :
    AddsBenign (verifyCompletion processName) :=
  addsBenign_tryCatch _ (addsBenign_verifyBody processName)

theorem addsBenign_stagesAfterLaunch (cfg : Config) : AddsBenign (stagesAfterLaunch cfg) := by
  unfold stagesAfterLaunch
  refine addsBenign_bind (addsBenign_prim rfl) (fun _ => ?_)
  refine addsBenign_bind (addsBenign_prim rfl) (fun _ => ?_)
  refine addsBenign_bind (addsBenign_login _ _ _) (fun _ => ?_)
  refine addsBenign_bind (addsBenign_navigateToModeler _) (fun _ => ?_)
  refine addsBenign_bind (addsBenign_createProcess _ _) (fun _ => ?_)
  exact addsBenign_bind (addsBenign_runProcessInstance _ _)
    (fun _ => addsBenign_verifyCompletion _)

/-! ### Orchestrator-level lemmas -/

theorem stagesAfterLaunch_ok {env : Env} {t : Option String} (h : okActs env)
    (ht : okText env t) (cfg : Config) (tr : List Action) :
    stagesAfterLaunch cfg env tr =
      (Except.ok (),
       tr ++ [Action.newContext] ++ [Action.newPage] ++
         loginSteps cfg.CAMUNDA_URL cfg.USERNAME cfg.PASSWORD ++
         navigateToModelerSteps cfg.CAMUNDA_URL ++
         createProcessSteps cfg.PROCESS_NAME cfg.REST_URL ++
         runProcessInstanceSteps cfg.CAMUNDA_URL cfg.PROCESS_NAME ++
         verifySteps cfg.PROCESS_NAME ++
         [Action.textContent (completionStatusCellSelector cfg.PROCESS_NAME),
          Action.log (if t = some "Completed" then completedLine cfg.PROCESS_NAME
            else didNotCompleteLine cfg.PROCESS_NAME)]) := by
  unfold stagesAfterLaunch
  rw [bind_ok _ (prim_ok h _ _), bind_ok _ (prim_ok h _ _),
    bind_ok _ (login_ok h _ _ _ _), bind_ok _ (navigateToModeler_ok h _ _),
    bind_ok _ (createProcess_ok h _ _ _), bind_ok _ (runProcessInstance_ok h _ _ _),
    verifyCompletion_ok h ht _ _]

theorem run_launch_err {env : Env} {m : String} (cfg : Config)
    (h : env.act [] Action.launch = Except.error m) :
    run cfg env [] =
      (Except.ok (), [Action.launch, Action.logError ("An error occurred: " ++ m)]) := by
  have h1 : prim Action.launch env [] = (Except.error m, [Action.launch]) := by
    simp [prim_apply, primRes, h]
  unfold run
  rw [h1]
  rfl

theorem run_launch_ok {env : Env} (cfg : Config)
    (h : env.act [] Action.launch = Except.ok ()) :
    run cfg env [] = finallyClose (stagesAfterLaunch cfg env [Action.launch]) env := by
  have h1 : prim Action.launch env [] = (Except.ok (), [Action.launch]) := by
    simp [prim_apply, primRes, h]
  unfold run
  rw [h1]

theorem finallyClose_ok (env : Env) (tr : List Action) :
    finallyClose (Except.ok (), tr) env =
      (env.act tr Action.browserClose, tr ++ [Action.browserClose]) := rfl

theorem finallyClose_err (env : Env) (tr : List Action) (m : String) :
    finallyClose (Except.error m, tr) env =
      (env.act (tr ++ [Action.logError ("An error occurred: " ++ m)]) Action.browserClose,
       tr ++ [Action.logError ("An error occurred: " ++ m)] ++ [Action.browserClose]) := rfl

/-! ### Claim theorems -/

/-- Claim C4: when an environment variable is unset, the resolved
configuration value equals its literal fallback default: `CAMUNDA_URL`,
`USERNAME` and `PASSWORD` resolve to the empty string, `PROCESS_NAME` to
`Test Process`, and `REST_URL` to `https://api.example.com/data`.  The
configuration is a value built once by `resolveConfig` from the
environment snapshot and never mutated afterwards. -/
theorem config_unset_fallback_defaults (envVars : String → Option String) :
    (envVars "CAMUNDA_URL" = none → (resolveConfig envVars).CAMUNDA_URL = "") ∧
    (envVars "USERNAME" = none → (resolveConfig envVars).USERNAME = "") ∧
    (envVars "PASSWORD" = none → (resolveConfig envVars).PASSWORD = "") ∧
    (envVars "PROCESS_NAME" = none →
      (resolveConfig envVars).PROCESS_NAME = "Test Process") ∧
    (envVars "REST_URL" = none →
      (resolveConfig envVars).REST_URL = "https://api.example.com/data") := by
  refine ⟨fun h => ?_, fun h => ?_, fun h => ?_, fun h => ?_, fun h => ?_⟩ <;>
    simp [resolveConfig, jsOr, h]

/-- Witness for C4: the configuration resolved from an empty environment
carries exactly the five literal defaults. -/
theorem config_unset_fallback_defaults_witness :
    (resolveConfig (fun _ => none)).CAMUNDA_URL = "" ∧
    (resolveConfig (fun _ => none)).USERNAME = "" ∧
    (resolveConfig (fun _ => none)).PASSWORD = "" ∧
    (resolveConfig (fun _ => none)).PROCESS_NAME = "Test Process" ∧
    (resolveConfig (fun _ => none)).REST_URL = "https://api.example.com/data" := by
  have h := config_unset_fallback_defaults (fun _ => none)
  exact ⟨h.1 rfl, h.2.1 rfl, h.2.2.1 rfl, h.2.2.2.1 rfl, h.2.2.2.2 rfl⟩

/-- Claim C8: because the source resolves each setting with JavaScript
logical-or (`process.env.X || default`), a variable that is set but equal
to the empty string also resolves to its fallback default, a strictly
broader condition than being unset. -/
theorem config_empty_string_fallback (envVars : String → Option String) :
    (envVars "CAMUNDA_URL" = some "" → (resolveConfig envVars).CAMUNDA_URL = "") ∧
    (envVars "USERNAME" = some "" → (resolveConfig envVars).USERNAME = "") ∧
    (envVars "PASSWORD" = some "" → (resolveConfig envVars).PASSWORD = "") ∧
    (envVars "PROCESS_NAME" = some "" →
      (resolveConfig envVars).PROCESS_NAME = "Test Process") ∧
    (envVars "REST_URL" = some "" →
      (resolveConfig envVars).REST_URL = "https://api.example.com/data") := by
  refine ⟨fun h => ?_, fun h => ?_, fun h => ?_, fun h => ?_, fun h => ?_⟩ <;>
    simp [resolveConfig, jsOr, h]

/-- Witness for C8: with every variable set to the empty string, the
resolved configuration still carries the five literal defaults. -/
theorem config_empty_string_fallback_witness :
    (resolveConfig (fun _ => some "")).PROCESS_NAME = "Test Process" ∧
    (resolveConfig (fun _ => some "")).REST_URL = "https://api.example.com/data" := by
  have h := config_empty_string_fallback (fun _ => some "")
  exact ⟨h.2.2.2.1 rfl, h.2.2.2.2 rfl⟩

/-- Claim C2: each of the five stage functions re-signals any failure of
its body as an error whose message is exactly the stage's fixed label
concatenated with the underlying message, and performs no other
transformation: a successful body passes through unchanged, and no
distinction among failure causes is made beyond the message text. -/
theorem stage_error_wrapping (camundaUrl username password processName restUrl : String)
    (env : Env) (tr : List Action) :
    (∀ m tr1, execSeq (loginSteps camundaUrl username password) env tr =
        (Except.error m, tr1) →
      login camundaUrl username password env tr =
        (Except.error ("Login failed: " ++ m), tr1)) ∧
    (∀ m tr1, execSeq (navigateToModelerSteps camundaUrl) env tr = (Except.error m, tr1) →
      navigateToModeler camundaUrl env tr =
        (Except.error ("Navigation to Web Modeler failed: " ++ m), tr1)) ∧
    (∀ m tr1, execSeq (createProcessSteps processName restUrl) env tr =
        (Except.error m, tr1) →
      createProcess processName restUrl env tr =
        (Except.error ("Process creation failed: " ++ m), tr1)) ∧
    (∀ m tr1, execSeq (runProcessInstanceSteps camundaUrl processName) env tr =
        (Except.error m, tr1) →
      runProcessInstance camundaUrl processName env tr =
        (Except.error ("Running process instance failed: " ++ m), tr1)) ∧
    (∀ m tr1, verifyBody processName env tr = (Except.error m, tr1) →
      verifyCompletion processName env tr =
        (Except.error ("Verification of process completion failed: " ++ m), tr1)) ∧
    (∀ v tr1, execSeq (loginSteps camundaUrl username password) env tr =
        (Except.ok v, tr1) →
      login camundaUrl username password env tr = (Except.ok v, tr1)) ∧
    (∀ v tr1, execSeq (navigateToModelerSteps camundaUrl) env tr = (Except.ok v, tr1) →
      navigateToModeler camundaUrl env tr = (Except.ok v, tr1)) ∧
    (∀ v tr1, execSeq (createProcessSteps processName restUrl) env tr =
        (Except.ok v, tr1) →
      createProcess processName restUrl env tr = (Except.ok v, tr1)) ∧
    (∀ v tr1, execSeq (runProcessInstanceSteps camundaUrl processName) env tr =
        (Except.ok v, tr1) →
      runProcessInstance camundaUrl processName env tr = (Except.ok v, tr1)) ∧
    (∀ v tr1, verifyBody processName env tr = (Except.ok v, tr1) →
      verifyCompletion processName env tr = (Except.ok v, tr1)) := by
  refine ⟨fun m tr1 h => tryCatch_wrap _ h, fun m tr1 h => tryCatch_wrap _ h,
    fun m tr1 h => tryCatch_wrap _ h, fun m tr1 h => tryCatch_wrap _ h,
    fun m tr1 h => tryCatch_wrap _ h, fun v tr1 h => tryCatch_ok _ h,
    fun v tr1 h => tryCatch_ok _ h, fun v tr1 h => tryCatch_ok _ h,
    fun v tr1 h => tryCatch_ok _ h, fun v tr1 h => tryCatch_ok _ h⟩

/-- Witness for C2: the underlying message `timeout` on the first login
primitive surfaces as exactly `Login failed: timeout` (the example of the
specification). -/
theorem stage_error_wrapping_witness :
    login "" "" "" (mkEnv (failAll "timeout") (Except.ok none)) [] =
      (Except.error ("Login failed: " ++ "timeout"), [Action.goto "/login"]) :=
  (stage_error_wrapping "" "" "" "" "" (mkEnv (failAll "timeout") (Except.ok none)) []).1
    "timeout" [Action.goto "/login"] rfl

/-- Claim C7: when every primitive succeeds, `login` performs, in order:
navigate to the base URL extended with `/login`, fill the username field,
press Enter on it, fill the password field, press Enter on it, and wait
for the page navigation, then logs its success line.  The username and
password are submitted exactly as given, for every string including the
empty one: no local validation takes place. -/
theorem login_fixed_sequence (camundaUrl username password : String) (env : Env)
    (tr : List Action) (h : okActs env) :
    login camundaUrl username password env tr =
      (Except.ok (),
       tr ++
         [ Action.goto (camundaUrl ++ "/login")
         , Action.fill "input[name=\"username\"]" username
         , Action.press "input[name=\"username\"]" "Enter"
         , Action.fill "input[name=\"password\"]" password
         , Action.press "input[name=\"password\"]" "Enter"
         , Action.waitForNavigation
         , Action.log "Logged in successfully" ]) :=
  login_ok h camundaUrl username password tr

/-- Witness for C7: empty username and password are accepted and submitted
as-is. -/
theorem login_fixed_sequence_witness :
    login "" "" "" (mkEnv allOk (Except.ok none)) [] =
      (Except.ok (),
       [ Action.goto "/login"
       , Action.fill "input[name=\"username\"]" ""
       , Action.press "input[name=\"username\"]" "Enter"
       , Action.fill "input[name=\"password\"]" ""
       , Action.press "input[name=\"password\"]" "Enter"
       , Action.waitForNavigation
       , Action.log "Logged in successfully" ]) := by
  have h := login_fixed_sequence "" "" "" (mkEnv allOk (Except.ok none)) []
    (fun _ _ => rfl)
  exact h

/-- Claim C3: with the navigation primitives succeeding and the status
cell carrying text `s`, `verifyCompletion` logs the success line exactly
when `s` is the string `Completed`, and the non-completion line for every
other string (case-sensitively: `completed`, `Running`, the empty string
and `Incomplete` all log non-completion); in both cases the stage returns
successfully, so the classification never changes the run result. -/
theorem verify_completion_classification (processName s : String) (env : Env)
    (tr : List Action) (h : okActs env) (ht : okText env (some s)) :
    verifyCompletion processName env tr =
      (Except.ok (),
       tr ++ verifySteps processName ++
         [Action.textContent (completionStatusCellSelector processName),
          Action.log (if s = "Completed" then completedLine processName
            else didNotCompleteLine processName)]) := by
  have hv := verifyCompletion_ok h ht processName tr
  simpa using hv

/-- Witness for C3: the lowercase near-miss `completed` does not match,
and the stage still succeeds while logging the non-completion line. -/
theorem verify_completion_classification_witness :
    verifyCompletion "Test Process"
        (mkEnv allOk (Except.ok (some "completed"))) [] =
      (Except.ok (),
       verifySteps "Test Process" ++
         [Action.textContent (completionStatusCellSelector "Test Process"),
          Action.log (didNotCompleteLine "Test Process")]) := by
  have h := verify_completion_classification "Test Process" "completed"
    (mkEnv allOk (Except.ok (some "completed"))) [] (fun _ _ => rfl) (fun _ _ => rfl)
  simpa using h

/-- Claim C9: if the status cell exists but its text content is the DOM
`null`, the comparison against `Completed` simply fails without throwing:
`verifyCompletion` logs the non-completion line and returns successfully. -/
theorem verify_null_status_logs_non_completion (processName : String) (env : Env)
    (tr : List Action) (h : okActs env) (ht : okText env none) :
    verifyCompletion processName env tr =
      (Except.ok (),
       tr ++ verifySteps processName ++
         [Action.textContent (completionStatusCellSelector processName),
          Action.log (didNotCompleteLine processName)]) := by
  have hv := verifyCompletion_ok h ht processName tr
  simpa using hv

/-- Witness for C9: a concrete run of the verify stage over a null status
cell. -/
theorem verify_null_status_logs_non_completion_witness :
    verifyCompletion "Test Process" (mkEnv allOk (Except.ok none)) [] =
      (Except.ok (),
       verifySteps "Test Process" ++
         [Action.textContent (completionStatusCellSelector "Test Process"),
          Action.log (didNotCompleteLine "Test Process")]) := by
  have h := verify_null_status_logs_non_completion "Test Process"
    (mkEnv allOk (Except.ok none)) [] (fun _ _ => rfl) (fun _ _ => rfl)
  simpa using h

/-- `true` exactly on a `waitForSelector` primitive that carries an
explicit timeout bound. -/
def isBoundedWait : Action → Bool
  | Action.waitForSelector _ (some _) => true
  | _ => false

/-- Claim C6: the wait for the connector URL input is the only bounded
wait in the script: `createProcess` is the single stage whose step list
contains a `waitForSelector` with an explicit timeout, that occurrence is
unique, targets `input#rest-url` with a 5000 ms bound, and every wait in
the other stages passes no timeout bound of its own. -/
theorem bounded_wait_only_connector_url
    (camundaUrl username password processName restUrl : String) :
    Action.waitForSelector "input#rest-url" (some 5000) ∈
      createProcessSteps processName restUrl ∧
    List.countP isBoundedWait (createProcessSteps processName restUrl) = 1 ∧
    (∀ s t, Action.waitForSelector s (some t) ∈ createProcessSteps processName restUrl →
      s = "input#rest-url" ∧ t = 5000) ∧
    (∀ s t, Action.waitForSelector s (some t) ∉ loginSteps camundaUrl username password) ∧
    (∀ s t, Action.waitForSelector s (some t) ∉ navigateToModelerSteps camundaUrl) ∧
    (∀ s t, Action.waitForSelector s (some t) ∉
      runProcessInstanceSteps camundaUrl processName) ∧
    (∀ s t, Action.waitForSelector s (some t) ∉ verifySteps processName) := by
  refine ⟨by simp [createProcessSteps], ?_, ?_, ?_, ?_, ?_, ?_⟩
  · simp [createProcessSteps, List.countP_cons, isBoundedWait]
  · intro s t hmem
    simp [createProcessSteps] at hmem
    exact hmem
  · intro s t hmem
    simp [loginSteps] at hmem
  · intro s t hmem
    simp [navigateToModelerSteps] at hmem
  · intro s t hmem
    simp [runProcessInstanceSteps] at hmem
  · intro s t hmem
    simp [verifySteps] at hmem

/-- Witness for C6: the bounded connector-URL wait is present, and unique,
in the create-process step list built from the default configuration. -/
theorem bounded_wait_only_connector_url_witness :
    Action.waitForSelector "input#rest-url" (some 5000) ∈
      createProcessSteps "Test Process" "https://api.example.com/data" ∧
    List.countP isBoundedWait
      (createProcessSteps "Test Process" "https://api.example.com/data") = 1 := by
  have h := bounded_wait_only_connector_url "" "" "" "Test Process"
    "https://api.example.com/data"
  exact ⟨h.1, h.2.1⟩

theorem benign_not_close {e : Action} (h : stageBenign e = true) : isClose e = false := by
  cases e <;> simp_all [stageBenign, isClose]

theorem benign_not_errorLog {e : Action} (h : stageBenign e = true) :
    isErrorLog e = false := by
  cases e <;> simp_all [stageBenign, isErrorLog]

theorem countP_zero_of_false {p : Action → Bool} {l : List Action}
    (h : ∀ e ∈ l, p e = false) : List.countP p l = 0 :=
  List.countP_eq_zero.mpr (fun a ha => by simp [h a ha])

/-- Claim C5: when any stage throws, `run` catches the error, writes the
single diagnostic line `An error occurred: ` ++ the failure message, does
not re-throw (its result is a plain success, so the process signals no
failure), and performs nothing besides cleanup: the trace after the failed
stage attempt holds exactly the diagnostic and the browser close, with no
retry of any stage. -/
theorem run_catches_and_logs_stage_error (cfg : Config) (env : Env) (m : String)
    (hlaunch : env.act [] Action.launch = Except.ok ())
    (hclose : ∀ tr, env.act tr Action.browserClose = Except.ok ())
    (hst : (stagesAfterLaunch cfg env [Action.launch]).1 = Except.error m) :
    run cfg env [] =
      (Except.ok (),
       (stagesAfterLaunch cfg env [Action.launch]).2 ++
         [Action.logError ("An error occurred: " ++ m)] ++ [Action.browserClose]) ∧
    List.countP isErrorLog (run cfg env []).2 = 1 := by
  have hrun := run_launch_ok cfg hlaunch
  rcases addsBenign_stagesAfterLaunch cfg env [Action.launch] with ⟨d, hd, hb⟩
  cases hsal : stagesAfterLaunch cfg env [Action.launch] with
  | mk r tr2 =>
    rw [hsal] at hrun hst hd
    simp only at hst hd
    cases r with
    | ok v => simp at hst
    | error m2 =>
      have hm : m2 = m := by simpa using hst
      subst hm
      rw [finallyClose_err, hclose] at hrun
      refine ⟨hrun, ?_⟩
      rw [hrun]
      subst hd
      simp [List.countP_append, List.countP_cons, isErrorLog,
        countP_zero_of_false (fun e he => benign_not_errorLog (hb e he))]

/-- Witness for C5: a failing login navigation is caught, logged once and
followed only by the browser close; the run resolves successfully. -/
theorem run_catches_and_logs_stage_error_witness :
    run defaultCfg (mkEnv (failOnly (Action.goto "/login") "E") (Except.ok none)) [] =
      (Except.ok (),
       (stagesAfterLaunch defaultCfg
           (mkEnv (failOnly (Action.goto "/login") "E") (Except.ok none))
           [Action.launch]).2 ++
         [Action.logError ("An error occurred: " ++ "Login failed: E")] ++
         [Action.browserClose]) ∧
    List.countP isErrorLog
      (run defaultCfg (mkEnv (failOnly (Action.goto "/login") "E") (Except.ok none))
        []).2 = 1 :=
  run_catches_and_logs_stage_error defaultCfg
    (mkEnv (failOnly (Action.goto "/login") "E") (Except.ok none)) "Login failed: E"
    rfl (fun _ => rfl) rfl

/-- Claim C10: the guaranteed-release step is itself unprotected: when the
browser close rejects, nothing handles that error, so it becomes the
result of `run` (the returned promise rejects), whether the stages
succeeded or the catch clause had already swallowed a stage error. -/
theorem close_error_rejects_run (cfg : Config) (env : Env) (m : String)
    (hlaunch : env.act [] Action.launch = Except.ok ())
    (hclose : ∀ tr, env.act tr Action.browserClose = Except.error m) :
    (run cfg env []).1 = Except.error m := by
  rw [run_launch_ok cfg hlaunch]
  cases hsal : stagesAfterLaunch cfg env [Action.launch] with
  | mk r tr2 =>
    cases r with
    | ok v =>
      cases v
      rw [finallyClose_ok, hclose]
    | error m2 =>
      rw [finallyClose_err, hclose]

/-- Witness for C10: with every stage succeeding but the close rejecting,
the run itself rejects with the close error. -/
theorem close_error_rejects_run_witness :
    (run defaultCfg
      (mkEnv (failOnly Action.browserClose "close failed") (Except.ok none)) []).1 =
      Except.error "close failed" :=
  close_error_rejects_run defaultCfg
    (mkEnv (failOnly Action.browserClose "close failed") (Except.ok none))
    "close failed" rfl (fun _ => rfl)

/-- Claim C1: the orchestrator attempts the stages in the fixed order
bootstrap, login, navigateToModeler, createProcess, runProcessInstance,
verifyCompletion.  If the launch fails no stage runs and no close happens;
once the session is created the browser close is attempted exactly once,
as the final event of the run, for every outcome.  On a fully successful
environment the trace is exactly the ordered concatenation of the stage
step lists followed by the close.  The five concrete cut-off scenarios
show that a failure in stage `k` prevents every event of stages `k+1`
through `5`: the trace stops at the failing primitive, followed only by
the diagnostic and the close. -/
theorem run_stage_order_and_release (cfg : Config) (env : Env) :
    (∀ m, env.act [] Action.launch = Except.error m →
      run cfg env [] =
        (Except.ok (), [Action.launch, Action.logError ("An error occurred: " ++ m)])) ∧
    (env.act [] Action.launch = Except.ok () →
      List.countP isClose (run cfg env []).2 = 1 ∧
      (run cfg env []).2.getLast? = some Action.browserClose) ∧
    (∀ t, okActs env → okText env t →
      run cfg env [] =
        (Except.ok (),
         [Action.launch] ++ [Action.newContext] ++ [Action.newPage] ++
           loginSteps cfg.CAMUNDA_URL cfg.USERNAME cfg.PASSWORD ++
           navigateToModelerSteps cfg.CAMUNDA_URL ++
           createProcessSteps cfg.PROCESS_NAME cfg.REST_URL ++
           runProcessInstanceSteps cfg.CAMUNDA_URL cfg.PROCESS_NAME ++
           verifySteps cfg.PROCESS_NAME ++
           [Action.textContent (completionStatusCellSelector cfg.PROCESS_NAME),
            Action.log (if t = some "Completed" then completedLine cfg.PROCESS_NAME
              else didNotCompleteLine cfg.PROCESS_NAME)] ++
           [Action.browserClose])) ∧
    (run defaultCfg (mkEnv (failOnly (Action.goto "/login") "E") (Except.ok none)) [] =
      (Except.ok (),
       [Action.launch, Action.newContext, Action.newPage, Action.goto "/login",
        Action.logError "An error occurred: Login failed: E", Action.browserClose])) ∧
    (run defaultCfg (mkEnv (failOnly (Action.goto "") "E") (Except.ok none)) [] =
      (Except.ok (),
       [Action.launch, Action.newContext, Action.newPage] ++ loginSteps "" "" "" ++
         [Action.goto "",
          Action.logError "An error occurred: Navigation to Web Modeler failed: E",
          Action.browserClose])) ∧
    (run defaultCfg
        (mkEnv (failOnly (Action.click "button >> text=Create process") "E")
          (Except.ok none)) [] =
      (Except.ok (),
       [Action.launch, Action.newContext, Action.newPage] ++ loginSteps "" "" "" ++
         navigateToModelerSteps "" ++
         [Action.click "button >> text=Create process",
          Action.logError "An error occurred: Process creation failed: E",
          Action.browserClose])) ∧
    (run defaultCfg (mkEnv (failOnly (Action.goto "/run") "E") (Except.ok none)) [] =
      (Except.ok (),
       [Action.launch, Action.newContext, Action.newPage] ++ loginSteps "" "" "" ++
         navigateToModelerSteps "" ++
         createProcessSteps "Test Process" "https://api.example.com/data" ++
         [Action.goto "/run",
          Action.logError "An error occurred: Running process instance failed: E",
          Action.browserClose])) ∧
    (run defaultCfg (mkEnv allOk (Except.error "E")) [] =
      (Except.ok (),
       [Action.launch, Action.newContext, Action.newPage] ++ loginSteps "" "" "" ++
         navigateToModelerSteps "" ++
         createProcessSteps "Test Process" "https://api.example.com/data" ++
         runProcessInstanceSteps "" "Test Process" ++ verifySteps "Test Process" ++
         [Action.textContent (completionStatusCellSelector "Test Process"),
          Action.logError "An error occurred: Verification of process completion failed: E",
          Action.browserClose])) := by
  refine ⟨fun m h => run_launch_err cfg h, ?_, ?_, rfl, rfl, rfl, rfl, rfl⟩
  · intro h
    have hrun := run_launch_ok cfg h
    rcases addsBenign_stagesAfterLaunch cfg env [Action.launch] with ⟨d, hd, hb⟩
    have hdz : List.countP isClose d = 0 :=
      countP_zero_of_false (fun e he => benign_not_close (hb e he))
    cases hsal : stagesAfterLaunch cfg env [Action.launch] with
    | mk r tr2 =>
      rw [hsal] at hrun hd
      simp only at hd
      subst hd
      cases r with
      | ok v =>
        cases v
        rw [finallyClose_ok] at hrun
        rw [hrun]
        constructor
        · simp [List.countP_append, List.countP_cons, isClose, hdz]
        · exact List.getLast?_concat _
      | error m2 =>
        rw [finallyClose_err] at hrun
        rw [hrun]
        constructor
        · simp [List.countP_append, List.countP_cons, isClose, hdz]
        · exact List.getLast?_concat _
  · intro t hok htext
    rw [run_launch_ok cfg (hok [] _), stagesAfterLaunch_ok hok htext, finallyClose_ok,
      hok]

/-- Witness for C1: a fully successful default-configuration run produces
exactly the ordered trace of all five stages followed by the single
browser close. -/
theorem run_stage_order_and_release_witness :
    run defaultCfg (mkEnv allOk (Except.ok (some "Completed"))) [] =
      (Except.ok (),
       [Action.launch] ++ [Action.newContext] ++ [Action.newPage] ++
         loginSteps "" "" "" ++ navigateToModelerSteps "" ++
         createProcessSteps "Test Process" "https://api.example.com/data" ++
         runProcessInstanceSteps "" "Test Process" ++ verifySteps "Test Process" ++
         [Action.textContent (completionStatusCellSelector "Test Process"),
          Action.log (completedLine "Test Process")] ++
         [Action.browserClose]) := by
  have h := (run_stage_order_and_release defaultCfg
      (mkEnv allOk (Except.ok (some "Completed")))).2.2.1 (some "Completed")
    (fun _ _ => rfl) (fun _ _ => rfl)
  exact h

end Automation
